import Mathlib

/-!
Verification development for the claudescreenfix terminal-output supervisor.

The definitions below are a shallow embedding of the JavaScript sources:
* the chunk classifier `isStdinEcho`, the stdout-write hook `handleWrite`
  and the resize debouncer `debouncedSigwinch` embed `index.cjs`
  (the v2.0.0 revision with glitch detection and the 120-line cap);
* `GDState`, `checkGlitchState`, `attemptRecovery`, `reset` and friends
  embed the `GlitchDetector` class of `glitch-detector.cjs`.

Timestamps are modelled as integers (milliseconds, as produced by
`Date.now()`); chunks are lists of characters (JavaScript strings), and a
non-string chunk (a `Buffer`) is a separate constructor of `WriteChunk`.
-/

namespace ScreenFix

/-- `'\x1b[3J'` — discard scrollback history. -/
def CLEAR_SCROLLBACK : List Char := ['\x1b', '[', '3', 'J']

/-- `'\x1b[s'` — checkpoint cursor position. -/
def CURSOR_SAVE : List Char := ['\x1b', '[', 's']

/-- `'\x1b[u'` — return to checkpointed position. -/
def CURSOR_RESTORE : List Char := ['\x1b', '[', 'u']

/-- `'\x1b[2J'` — full-screen clear, detected as a repaint marker. -/
def CLEAR_SCREEN : List Char := ['\x1b', '[', '2', 'J']

/-- `'\x1b[H'` — cursor home, detected as a repaint marker. -/
def HOME_CURSOR : List Char := ['\x1b', '[', 'H']

/-- The forced-trim directive `CURSOR_SAVE + CLEAR_SCROLLBACK + CURSOR_RESTORE`. -/
def TRIM_SEQ : List Char := CURSOR_SAVE ++ CLEAR_SCROLLBACK ++ CURSOR_RESTORE

/-- The literal marker `'Conversation cleared'`. -/
def CONV_CLEARED : List Char :=
  ['C', 'o', 'n', 'v', 'e', 'r', 's', 'a', 't', 'i', 'o', 'n', ' ',
   'c', 'l', 'e', 'a', 'r', 'e', 'd']

/-- The literal marker `'Chat cleared'`. -/
def CHAT_CLEARED : List Char :=
  ['C', 'h', 'a', 't', ' ', 'c', 'l', 'e', 'a', 'r', 'e', 'd']

/-- `pat` occurs at the start of `s` (JavaScript `s.startsWith(pat)`). -/
def leadsWith : List Char → List Char → Bool
  | [], _ => true
  | _ :: _, [] => false
  | p :: ps, c :: cs => p == c && leadsWith ps cs

/-- `pat` occurs somewhere inside `s` (JavaScript `s.includes(pat)`). -/
def hasSub (pat : List Char) : List Char → Bool
  | [] => leadsWith pat []
  | c :: cs => leadsWith pat (c :: cs) || hasSub pat cs

/-- The `index.cjs` configuration object (fields used by the hook and the
debouncer; durations in milliseconds). -/
structure Cfg where
  resizeDebounceMs : Int
  periodicClearMs : Int
  clearAfterRenders : Nat
  typingCooldownMs : Int
  maxLineCount : Nat
  glitchRecoveryEnabled : Bool
deriving DecidableEq

/-- The default config of `index.cjs`. -/
def cfg0 : Cfg :=
  { resizeDebounceMs := 150, periodicClearMs := 60000, clearAfterRenders := 500,
    typingCooldownMs := 500, maxLineCount := 120, glitchRecoveryEnabled := true }

/-- `isTypingActive()`: `Date.now() - lastTypingTime < config.typingCooldownMs`. -/
def typingActive (cfg : Cfg) (now lastTypingTime : Int) : Bool :=
  decide (now - lastTypingTime < cfg.typingCooldownMs)

/-- First branch of `isStdinEcho`: a single printable ASCII character
(`chunk.length === 1 && 32 <= charCodeAt(0) <= 126`). -/
def isSinglePrintable : List Char → Bool
  | [c] => decide (32 ≤ c.toNat) && decide (c.toNat ≤ 126)
  | _ => false

/-- `isStdinEcho(chunk)` from `index.cjs`: keystroke-echo classification. -/
def isStdinEcho (chunk : List Char) : Bool :=
  isSinglePrintable chunk
  || (decide (chunk.length ≤ 4) && (chunk.contains '\x08' || chunk.contains '\x7f'))
  || (decide (chunk.length ≤ 6) && leadsWith ['\x1b', '['] chunk
       && !chunk.contains 'J' && !chunk.contains 'H')
  || (chunk == ['\n'] || chunk == ['\r'] || chunk == ['\r', '\n'])

/-- Cumulative counters of the glitch detector (`this.metrics`). -/
structure GDMetrics where
  glitchesDetected : Nat
  recoveriesAttempted : Nat
  stdinSilenceEvents : Nat
  sigwinchStorms : Nat
  renderSpikes : Nat
deriving DecidableEq

/-- Mutable state of a `GlitchDetector` instance. -/
structure GDState where
  lastStdinTime : Int
  lastStdoutTime : Int
  lastSigwinchTime : Int
  sigwinchCount : Nat
  renderTimes : List Int
  isGlitched : Bool
  glitchStartTime : Option Int
  metrics : GDMetrics
deriving DecidableEq

/-- Detector configuration (`DEFAULT_CONFIG` shape). -/
structure GDConfig where
  stdinTimeoutMs : Int
  sigwinchThresholdMs : Int
  sigwinchStormCount : Nat
  renderRateLimit : Nat
  checkIntervalMs : Int
  recoveryDelayMs : Int
deriving DecidableEq

/-- `DEFAULT_CONFIG` of `glitch-detector.cjs`. -/
def gcfg0 : GDConfig :=
  { stdinTimeoutMs := 2000, sigwinchThresholdMs := 10, sigwinchStormCount := 5,
    renderRateLimit := 500, checkIntervalMs := 500, recoveryDelayMs := 1000 }

/-- The detector constructor state (`new GlitchDetector()` at time `now`). -/
def initGD (now : Int) : GDState :=
  { lastStdinTime := now, lastStdoutTime := 0, lastSigwinchTime := 0,
    sigwinchCount := 0, renderTimes := [], isGlitched := false,
    glitchStartTime := none,
    metrics := { glitchesDetected := 0, recoveriesAttempted := 0,
                 stdinSilenceEvents := 0, sigwinchStorms := 0, renderSpikes := 0 } }

/-- The stdin `'data'` listener: `this.lastStdinTime = Date.now()`. -/
def recordStdin (now : Int) (d : GDState) : GDState :=
  { d with lastStdinTime := now }

/-- `trackStdout()`: record an output sample, keep only the last minute. -/
def trackStdout (now : Int) (d : GDState) : GDState :=
  { d with lastStdoutTime := now,
           renderTimes :=
             (d.renderTimes ++ [now]).filter (fun t => decide (now - t < 60000)) }

/-- `onSigwinch()`: bump the burst counter when two resizes arrive closer
than `sigwinchThresholdMs` apart. -/
def onSigwinch (gcfg : GDConfig) (now : Int) (d : GDState) : GDState :=
  let interval := now - d.lastSigwinchTime
  let d1 := { d with lastSigwinchTime := now }
  if interval < gcfg.sigwinchThresholdMs then
    { d1 with sigwinchCount := d1.sigwinchCount + 1 }
  else d1

/-- The decay timeout scheduled by `onSigwinch`:
`if (this.sigwinchCount > 0) this.sigwinchCount--`. -/
def sigwinchDecay (d : GDState) : GDState :=
  if 0 < d.sigwinchCount then { d with sigwinchCount := d.sigwinchCount - 1 } else d

/-- SIGNAL 1 predicate: stdin silent beyond the threshold while output was
active within the last 5 seconds. -/
def stdinSilenceSignal (gcfg : GDConfig) (now : Int) (d : GDState) : Bool :=
  decide (gcfg.stdinTimeoutMs < now - d.lastStdinTime)
    && decide (now - d.lastStdoutTime < 5000)

/-- SIGNAL 2 predicate: the burst counter reached the storm count. -/
def stormSignal (gcfg : GDConfig) (d : GDState) : Bool :=
  decide (gcfg.sigwinchStormCount ≤ d.sigwinchCount)

/-- SIGNAL 3 predicate: more samples in the trailing window than the limit. -/
def spikeSignal (gcfg : GDConfig) (d : GDState) : Bool :=
  decide (gcfg.renderRateLimit < d.renderTimes.length)

/-- `checkStdinSilence()`: evaluate SIGNAL 1 and bump its metric when it fires. -/
def checkStdinSilence (gcfg : GDConfig) (now : Int) (d : GDState) : Bool × GDState :=
  if stdinSilenceSignal gcfg now d then
    (true, { d with metrics :=
      { d.metrics with stdinSilenceEvents := d.metrics.stdinSilenceEvents + 1 } })
  else (false, d)

/-- `checkSigwinchStorm()`: evaluate SIGNAL 2 and bump its metric when it fires. -/
def checkSigwinchStorm (gcfg : GDConfig) (d : GDState) : Bool × GDState :=
  if stormSignal gcfg d then
    (true, { d with metrics :=
      { d.metrics with sigwinchStorms := d.metrics.sigwinchStorms + 1 } })
  else (false, d)

/-- `checkRenderSpike()`: evaluate SIGNAL 3 and bump its metric when it fires. -/
def checkRenderSpike (gcfg : GDConfig) (d : GDState) : Bool × GDState :=
  if spikeSignal gcfg d then
    (true, { d with metrics :=
      { d.metrics with renderSpikes := d.metrics.renderSpikes + 1 } })
  else (false, d)

/-- `signals.filter(Boolean).length`. -/
def activeSignalCount (s1 s2 s3 : Bool) : Nat :=
  ([s1, s2, s3].filter (fun b => b)).length

/-- `checkGlitchState()`: the periodic vote plus the `Normal`/`Glitched`
state transition.  Returns the vote together with the updated state. -/
def checkGlitchState (gcfg : GDConfig) (now : Int) (d : GDState) : Bool × GDState :=
  let r1 := checkStdinSilence gcfg now d
  let r2 := checkSigwinchStorm gcfg r1.2
  let r3 := checkRenderSpike gcfg r2.2
  let glitched := decide (2 ≤ activeSignalCount r1.1 r2.1 r3.1) || r1.1
  if glitched && !r3.2.isGlitched then
    let m := { r3.2.metrics with glitchesDetected := r3.2.metrics.glitchesDetected + 1 }
    (glitched, { r3.2 with isGlitched := true, glitchStartTime := some now, metrics := m })
  else if !glitched && r3.2.isGlitched then
    (glitched, { r3.2 with isGlitched := false, glitchStartTime := none })
  else (glitched, r3.2)

/-- `reset()`: clear all rolling state and force `Normal`. -/
def reset (now : Int) (d : GDState) : GDState :=
  { d with lastStdinTime := now, lastStdoutTime := now, sigwinchCount := 0,
           renderTimes := [], isGlitched := false, glitchStartTime := none }

/-- An outbound chunk: a JavaScript string or a non-string (`Buffer`). -/
inductive WriteChunk where
  | str (s : List Char)
  | bytes (b : List Nat)
deriving DecidableEq

/-- Mutable state owned by the `index.cjs` stdout-write hook. -/
structure HookState where
  renderCount : Nat
  lineCount : Nat
  lastTypingTime : Int
  glitchRecoveryInProgress : Bool
  detector : Option GDState
deriving DecidableEq

/-- `glitchDetector.isInGlitchState()` on the optional detector reference. -/
def detectorIsGlitched : Option GDState → Bool
  | some d => d.isGlitched
  | none => false

/-- Counters-and-chunk record threaded through the hook body. -/
structure Flow where
  renderCount : Nat
  lineCount : Nat
  chunk : List Char
deriving DecidableEq

/-- The 120-line hard cap: `if (lineCount > config.maxLineCount)` reset the
counter and prepend the forced-trim directive. -/
def stepTrim (cfg : Cfg) (f : Flow) : Flow :=
  if cfg.maxLineCount < f.lineCount then
    { renderCount := f.renderCount, lineCount := 0, chunk := TRIM_SEQ ++ f.chunk }
  else f

/-- The repaint branch: on a screen-clear/home marker reset `lineCount`, and
when the render threshold is reached and typing is not active, reset
`renderCount` and prepend a scrollback clear. -/
def stepRepaint (cfg : Cfg) (active : Bool) (f : Flow) : Flow :=
  if hasSub CLEAR_SCREEN f.chunk || hasSub HOME_CURSOR f.chunk then
    if 0 < cfg.clearAfterRenders ∧ cfg.clearAfterRenders ≤ f.renderCount then
      if active then { f with lineCount := 0 }
      else { renderCount := 0, lineCount := 0, chunk := CLEAR_SCROLLBACK ++ f.chunk }
    else { f with lineCount := 0 }
  else f

/-- The `/clear` branch: on a cleared-marker substring reset `lineCount` and
prepend a scrollback clear unconditionally. -/
def stepClear (f : Flow) : Flow :=
  if hasSub CONV_CLEARED f.chunk || hasSub CHAT_CLEARED f.chunk then
    { f with lineCount := 0, chunk := CLEAR_SCROLLBACK ++ f.chunk }
  else f

/-- The non-echo body of the hook on the counters and the chunk: increment
`renderCount`, add the chunk's newline count to `lineCount`, then run the
line-cap, repaint and explicit-clear branches in source order. -/
def nonEchoFlow (cfg : Cfg) (now : Int) (st : HookState) (s : List Char) : Flow :=
  stepClear (stepRepaint cfg (typingActive cfg now st.lastTypingTime)
    (stepTrim cfg
      { renderCount := st.renderCount + 1,
        lineCount := st.lineCount + s.count '\n', chunk := s }))

/-- The hooked `process.stdout.write` of `index.cjs` (v2.0.0), as a function
from the hook state and the incoming chunk to the updated state and the
chunk actually handed to the original `write`. -/
def handleWrite (cfg : Cfg) (now : Int) (st : HookState) : WriteChunk → HookState × WriteChunk
  | WriteChunk.bytes b => (st, WriteChunk.bytes b)
  | WriteChunk.str s =>
    if isStdinEcho s then
      ({ st with lastTypingTime := now }, WriteChunk.str s)
    else
      let det := Option.map (trackStdout now) st.detector
      let f := nonEchoFlow cfg now st s
      if cfg.glitchRecoveryEnabled && !st.glitchRecoveryInProgress
           && detectorIsGlitched det then
        ({ renderCount := 0, lineCount := 0, lastTypingTime := st.lastTypingTime,
           glitchRecoveryInProgress := true, detector := det },
         WriteChunk.str (TRIM_SEQ ++ f.chunk))
      else
        ({ renderCount := f.renderCount, lineCount := f.lineCount,
           lastTypingTime := st.lastTypingTime,
           glitchRecoveryInProgress := st.glitchRecoveryInProgress, detector := det },
         WriteChunk.str f.chunk)

/-- State owned by `installResizeDebounce`: the last notification time, the
pending deferred-fire timer (as its deadline), and how many times the
registered SIGWINCH handler list has been invoked so far. -/
structure RdState where
  lastResizeTime : Int
  resizeTimeout : Option Int
  fires : Nat
deriving DecidableEq

/-- `debouncedSigwinch()`: cancel any pending timer; inside the window,
(re)schedule a deferred fire `resizeDebounceMs` from now; otherwise invoke
the handlers immediately. -/
def debouncedSigwinch (cfg : Cfg) (now : Int) (st : RdState) : RdState :=
  let timeSince := now - st.lastResizeTime
  let st1 : RdState := { lastResizeTime := now, resizeTimeout := none, fires := st.fires }
  if timeSince < cfg.resizeDebounceMs then
    { st1 with resizeTimeout := some (now + cfg.resizeDebounceMs) }
  else
    { st1 with fires := st1.fires + 1 }

/-- The deferred timer firing at its deadline: invoke the handlers once. -/
def fireResizeTimer (st : RdState) : RdState :=
  match st.resizeTimeout with
  | some _ => { st with resizeTimeout := none, fires := st.fires + 1 }
  | none => st

/-- Feed a list of resize-notification times through the debouncer. -/
def notifyBurst (cfg : Cfg) (ts : List Int) (st : RdState) : RdState :=
  ts.foldl (fun s t => debouncedSigwinch cfg t s) st

/-- Every time in the list arrives strictly less than `w` after the previous
one, the first being measured against `prev`. -/
def burstGaps (w : Int) : Int → List Int → Bool
  | _, [] => true
  | prev, t :: ts => decide (t - prev < w) && burstGaps w t ts

/-- Last notification time of a burst `t :: ts`. -/
def lastOf (t : Int) : List Int → Int
  | [] => t
  | t2 :: ts => lastOf t2 ts

/-- Environment oracle for one run of `attemptRecovery`: whether a
multiplexer session id is present in the environment, whether the external
`screen` command throws, whether stdout is a TTY, whether the direct
scrollback write throws, and the clock values at the two post-delay
re-evaluations of the vote. -/
structure RecEnv where
  screenSession : Bool
  screenThrows : Bool
  isTTY : Bool
  writeThrows : Bool
  t1 : Int
  t2 : Int
deriving DecidableEq

/-- Events the recovery procedure emits. -/
inductive RecEvent where
  | started
  | successScreen
  | successScrollback
  | failed
  | error
deriving DecidableEq

/-- `this.metrics.recoveriesAttempted++`. -/
def bumpRecoveries (d : GDState) : GDState :=
  { d with metrics :=
      { d.metrics with recoveriesAttempted := d.metrics.recoveriesAttempted + 1 } }

/-- Method 2 of `attemptRecovery` (direct scrollback clear) together with
the exhaustion path.  Returns (result, state, events, terminal writes). -/
def recoveryMethodTwo (gcfg : GDConfig) (env : RecEnv) (d : GDState)
    (evs : List RecEvent) : Bool × GDState × List RecEvent × List (List Char) :=
  if env.isTTY && env.writeThrows then
    (false, d, evs ++ [RecEvent.error], [])
  else
    let writes := if env.isTTY then [CLEAR_SCROLLBACK] else []
    let r2 := checkGlitchState gcfg env.t2 d
    if !r2.1 then (true, r2.2, evs ++ [RecEvent.successScrollback], writes)
    else (false, r2.2, evs ++ [RecEvent.failed], writes)

/-- `attemptRecovery()`: the whole body sits in a single `try`; an exception
anywhere inside it jumps to the `catch`, which emits `recovery-error` and
returns `false` (so an exception never propagates to the caller, and no
later statement of the `try` block runs). -/
def attemptRecovery (gcfg : GDConfig) (env : RecEnv) (d : GDState) :
    Bool × GDState × List RecEvent × List (List Char) :=
  if !d.isGlitched then (false, d, [], [])
  else
    let d1 := bumpRecoveries d
    if env.screenSession then
      if env.screenThrows then
        (false, d1, [RecEvent.started, RecEvent.error], [])
      else
        let r1 := checkGlitchState gcfg env.t1 d1
        if !r1.1 then (true, r1.2, [RecEvent.started, RecEvent.successScreen], [])
        else recoveryMethodTwo gcfg env r1.2 [RecEvent.started]
    else recoveryMethodTwo gcfg env d1 [RecEvent.started]

/-- Reachable detector states: the constructor state closed under every
mutation the class performs (stdin tracking, output tracking, SIGWINCH
handling and decay, the periodic check, recovery, and reset). -/
inductive Reachable (gcfg : GDConfig) : GDState → Prop where
  | init (now : Int) : Reachable gcfg (initGD now)
  | stdin (now : Int) {d : GDState} : Reachable gcfg d → Reachable gcfg (recordStdin now d)
  | stdout (now : Int) {d : GDState} : Reachable gcfg d → Reachable gcfg (trackStdout now d)
  | winch (now : Int) {d : GDState} : Reachable gcfg d → Reachable gcfg (onSigwinch gcfg now d)
  | decay {d : GDState} : Reachable gcfg d → Reachable gcfg (sigwinchDecay d)
  | check (now : Int) {d : GDState} : Reachable gcfg d →
      Reachable gcfg (checkGlitchState gcfg now d).2
  | recov (env : RecEnv) {d : GDState} : Reachable gcfg d →
      Reachable gcfg (attemptRecovery gcfg env d).2.1
  | rst (now : Int) {d : GDState} : Reachable gcfg d → Reachable gcfg (reset now d)

/-- Process-level hooks and timers touched by `install()`/`disable()` of
`index.cjs`: whether `process.stdout.write` and `process.on` are currently
replaced by the module's wrappers, whether the periodic clear interval is
running, whether a debounced resize timer is pending, whether
`originalWrite` has been captured, the `installed` latch, and the
`config.disabled` flag. -/
structure IdxState where
  writeHooked : Bool
  onHooked : Bool
  clearIntervalActive : Bool
  resizeTimerPending : Bool
  originalWrite : Bool
  installed : Bool
  disabledCfg : Bool
deriving DecidableEq

/-- The state before `install()` has ever run. -/
def idx0 : IdxState :=
  { writeHooked := false, onHooked := false, clearIntervalActive := false,
    resizeTimerPending := false, originalWrite := false, installed := false,
    disabledCfg := false }

/-- `install()`: capture `originalWrite`, replace `process.stdout.write`,
hook `process.on` (via `installResizeDebounce`), start the periodic clear
interval when `periodicClearMs > 0`, and set the `installed` latch. -/
def install (cfg : Cfg) (s : IdxState) : IdxState :=
  if s.installed || s.disabledCfg then s
  else
    { s with originalWrite := true, writeHooked := true, onHooked := true,
             clearIntervalActive := decide (0 < cfg.periodicClearMs),
             installed := true }

/-- `disable()`: `if (originalWrite) process.stdout.write = originalWrite` —
nothing else is touched. -/
def disable (s : IdxState) : IdxState :=
  if s.originalWrite then { s with writeHooked := false } else s

/-! ### Helper lemmas -/

/-- The glitch-state invariant of the detector. -/
def glitchInv (d : GDState) : Prop := d.isGlitched = true ↔ d.glitchStartTime ≠ none

theorem checkStdinSilence_fst (gcfg : GDConfig) (now : Int) (d : GDState) :
    (checkStdinSilence gcfg now d).1 = stdinSilenceSignal gcfg now d := by
  unfold checkStdinSilence; split <;> simp_all

theorem checkSigwinchStorm_fst (gcfg : GDConfig) (d : GDState) :
    (checkSigwinchStorm gcfg d).1 = stormSignal gcfg d := by
  unfold checkSigwinchStorm; split <;> simp_all

theorem checkRenderSpike_fst (gcfg : GDConfig) (d : GDState) :
    (checkRenderSpike gcfg d).1 = spikeSignal gcfg d := by
  unfold checkRenderSpike; split <;> simp_all

theorem stormSignal_after_silence (gcfg : GDConfig) (now : Int) (d : GDState) :
    stormSignal gcfg (checkStdinSilence gcfg now d).2 = stormSignal gcfg d := by
  unfold checkStdinSilence; split <;> rfl

theorem spikeSignal_after_silence (gcfg : GDConfig) (now : Int) (d : GDState) :
    spikeSignal gcfg (checkStdinSilence gcfg now d).2 = spikeSignal gcfg d := by
  unfold checkStdinSilence; split <;> rfl

theorem spikeSignal_after_storm (gcfg : GDConfig) (d : GDState) :
    spikeSignal gcfg (checkSigwinchStorm gcfg d).2 = spikeSignal gcfg d := by
  unfold checkSigwinchStorm; split <;> rfl

theorem checks_isGlitched (gcfg : GDConfig) (now : Int) (d : GDState) :
    ((checkRenderSpike gcfg
        (checkSigwinchStorm gcfg (checkStdinSilence gcfg now d).2).2).2).isGlitched
      = d.isGlitched := by
  unfold checkStdinSilence checkSigwinchStorm checkRenderSpike
  split <;> split <;> split <;> rfl

theorem checks_glitchStartTime (gcfg : GDConfig) (now : Int) (d : GDState) :
    ((checkRenderSpike gcfg
        (checkSigwinchStorm gcfg (checkStdinSilence gcfg now d).2).2).2).glitchStartTime
      = d.glitchStartTime := by
  unfold checkStdinSilence checkSigwinchStorm checkRenderSpike
  split <;> split <;> split <;> rfl

theorem checkGlitchState_fst (gcfg : GDConfig) (now : Int) (d : GDState) :
    (checkGlitchState gcfg now d).1
      = (decide (2 ≤ activeSignalCount (stdinSilenceSignal gcfg now d)
            (stormSignal gcfg d) (spikeSignal gcfg d)) || stdinSilenceSignal gcfg now d) := by
  simp only [checkGlitchState, checkStdinSilence_fst, checkSigwinchStorm_fst,
    checkRenderSpike_fst, stormSignal_after_silence, spikeSignal_after_storm,
    spikeSignal_after_silence]
  split
  · rfl
  · split <;> rfl

theorem glitchInv_check (gcfg : GDConfig) (now : Int) (d : GDState)
    (h : glitchInv d) : glitchInv (checkGlitchState gcfg now d).2 := by
  unfold glitchInv at h ⊢
  simp only [checkGlitchState]
  split
  · simp
  · split
    · simp
    · dsimp only
      rw [checks_isGlitched, checks_glitchStartTime]
      exact h

theorem glitchInv_methodTwo (gcfg : GDConfig) (env : RecEnv) (d : GDState)
    (evs : List RecEvent) (h : glitchInv d) :
    glitchInv (recoveryMethodTwo gcfg env d evs).2.1 := by
  simp only [recoveryMethodTwo]
  split
  · exact h
  · split <;> exact glitchInv_check _ _ _ h

theorem glitchInv_recov (gcfg : GDConfig) (env : RecEnv) (d : GDState)
    (h : glitchInv d) : glitchInv (attemptRecovery gcfg env d).2.1 := by
  have hb : glitchInv (bumpRecoveries d) := h
  simp only [attemptRecovery]
  split
  · exact h
  · split
    · split
      · exact hb
      · split
        · exact glitchInv_check _ _ _ hb
        · exact glitchInv_methodTwo _ _ _ _ (glitchInv_check _ _ _ hb)
    · exact glitchInv_methodTwo _ _ _ _ hb

/-! ### C10 — non-string chunks pass through with no bookkeeping -/

/-- C10: for every outbound chunk that is not a string, the stdout hook
hands the chunk to the original write entirely unmodified and performs no
bookkeeping: the whole hook state (renderCount, lineCount, typing
timestamp, recovery flag and the detector's samples) is returned
unchanged, and no directive is prepended. -/
theorem claim10_nonstring_chunk_untouched (cfg : Cfg) (now : Int) (st : HookState)
    (b : List Nat) :
    handleWrite cfg now st (WriteChunk.bytes b) = (st, WriteChunk.bytes b) := rfl

/-! ### C1 — keystroke echoes pass through byte-identical -/

/-- C1: every outbound string chunk matching one of the keystroke-echo
shapes (single printable ASCII character; a ≤4-unit sequence containing a
backspace or delete code; a ≤6-unit CSI sequence without an erase-display
or cursor-home byte; or exactly a bare line ending — the disjunction
`isStdinEcho`) is returned byte-identical and unmodified, with renderCount
and lineCount unchanged and only the last-typing timestamp updated. -/
theorem claim1_keystroke_echo_passthrough (cfg : Cfg) (now : Int) (st : HookState)
    (s : List Char) (h : isStdinEcho s = true) :
    handleWrite cfg now st (WriteChunk.str s)
      = ({ st with lastTypingTime := now }, WriteChunk.str s) := by
  unfold handleWrite
  simp [h]

/-- Concrete hook state used by witnesses. -/
def st0 : HookState :=
  { renderCount := 3, lineCount := 7, lastTypingTime := 0,
    glitchRecoveryInProgress := false, detector := none }

/-- Witness for C1 at the single printable character `'a'`. -/
theorem claim1_keystroke_echo_passthrough_w :
    handleWrite cfg0 50 st0 (WriteChunk.str ['a'])
      = ({ st0 with lastTypingTime := 50 }, WriteChunk.str ['a']) :=
  claim1_keystroke_echo_passthrough cfg0 50 st0 ['a'] (by decide)

/-! ### C3 — the 2-of-3 vote with stdin-silence independently sufficient -/

/-- A state whose signals at time 3000 read (stdin-silent, no storm, no
spike): the freshly constructed detector at time 0. -/
def dSilent : GDState := initGD 0

/-- A state whose signals at time 1000 read (no silence, storm, spike). -/
def dStormSpike : GDState :=
  { initGD 1000 with sigwinchCount := 5, renderTimes := List.replicate 501 900 }

/-- A glitched state whose signals at time 1000 all read false. -/
def dCalm : GDState :=
  { initGD 1000 with isGlitched := true, glitchStartTime := some 0 }

set_option maxRecDepth 4000 in
/-- C3: at each periodic check the vote is glitched iff at least two of the
three signals are true or stdin-silence is true; in particular signal
state (true,false,false) yields `Glitched`, (false,true,true) yields
`Glitched`, and (false,false,false) returns to `Normal`. -/
theorem claim3_two_of_three_vote :
    (∀ (gcfg : GDConfig) (now : Int) (d : GDState),
       (checkGlitchState gcfg now d).1
         = (decide (2 ≤ activeSignalCount (stdinSilenceSignal gcfg now d)
               (stormSignal gcfg d) (spikeSignal gcfg d))
            || stdinSilenceSignal gcfg now d))
    ∧ (stdinSilenceSignal gcfg0 3000 dSilent = true
        ∧ stormSignal gcfg0 dSilent = false
        ∧ spikeSignal gcfg0 dSilent = false
        ∧ (checkGlitchState gcfg0 3000 dSilent).2.isGlitched = true
        ∧ (checkGlitchState gcfg0 3000 dSilent).2.glitchStartTime = some 3000)
    ∧ (stdinSilenceSignal gcfg0 1000 dStormSpike = false
        ∧ stormSignal gcfg0 dStormSpike = true
        ∧ spikeSignal gcfg0 dStormSpike = true
        ∧ (checkGlitchState gcfg0 1000 dStormSpike).2.isGlitched = true)
    ∧ (stdinSilenceSignal gcfg0 1000 dCalm = false
        ∧ stormSignal gcfg0 dCalm = false
        ∧ spikeSignal gcfg0 dCalm = false
        ∧ (checkGlitchState gcfg0 1000 dCalm).2.isGlitched = false
        ∧ (checkGlitchState gcfg0 1000 dCalm).2.glitchStartTime = none) :=
  ⟨checkGlitchState_fst, by decide, by decide, by decide⟩

/-! ### C9 — `isGlitched` iff `glitchStartTime` is non-null -/

/-- C9: in every reachable detector state, `isGlitched` is true iff
`glitchStartTime` is non-null. -/
theorem claim9_glitch_flag_iff_start_time :
    ∀ (gcfg : GDConfig) (d : GDState), Reachable gcfg d →
      (d.isGlitched = true ↔ d.glitchStartTime ≠ none) := by
  intro gcfg d hr
  induction hr with
  | init now => simp [initGD]
  | stdin now _ ih => exact ih
  | stdout now _ ih => exact ih
  | winch now _ ih => simp only [onSigwinch]; split <;> exact ih
  | decay _ ih => simp only [sigwinchDecay]; split <;> exact ih
  | check now _ ih => exact glitchInv_check _ _ _ ih
  | recov env _ ih => exact glitchInv_recov _ _ _ ih
  | rst now _ ih => simp [reset]

/-- Witness for C9 at the constructor state. -/
theorem claim9_glitch_flag_iff_start_time_w :
    (initGD 0).isGlitched = true ↔ (initGD 0).glitchStartTime ≠ none :=
  claim9_glitch_flag_iff_start_time gcfg0 (initGD 0) (Reachable.init 0)

/-! ### Lemmas about substring search and the classifier -/

theorem leadsWith_length {p s : List Char} (h : leadsWith p s = true) :
    p.length ≤ s.length := by
  induction p generalizing s with
  | nil => simp
  | cons a ps ih =>
    cases s with
    | nil => simp [leadsWith] at h
    | cons c cs =>
      simp only [leadsWith, Bool.and_eq_true] at h
      have := ih h.2
      simp only [List.length_cons]
      omega

theorem hasSub_length {p s : List Char} (h : hasSub p s = true) :
    p.length ≤ s.length := by
  induction s with
  | nil => exact leadsWith_length h
  | cons c cs ih =>
    simp only [hasSub, Bool.or_eq_true] at h
    rcases h with h | h
    · exact leadsWith_length h
    · have := ih h
      simp only [List.length_cons]
      omega

theorem hasSub_append_right (q : List Char) {p s : List Char}
    (h : hasSub p s = true) : hasSub p (q ++ s) = true := by
  induction q with
  | nil => exact h
  | cons c cs ih =>
    show (leadsWith p (c :: (cs ++ s)) || hasSub p (cs ++ s)) = true
    rw [ih]
    simp

theorem isStdinEcho_of_long {s : List Char} (h : 6 < s.length) :
    isStdinEcho s = false := by
  cases s with
  | nil => simp at h
  | cons a t =>
    cases t with
    | nil => simp at h
    | cons b t2 =>
      simp only [List.length_cons] at h
      have ne1 : (a :: b :: t2) ≠ ['\n'] := by
        intro he
        have hl := congrArg List.length he
        simp only [List.length_cons, List.length_nil] at hl
        omega
      have ne2 : (a :: b :: t2) ≠ ['\r'] := by
        intro he
        have hl := congrArg List.length he
        simp only [List.length_cons, List.length_nil] at hl
        omega
      have ne3 : (a :: b :: t2) ≠ ['\r', '\n'] := by
        intro he
        have hl := congrArg List.length he
        simp only [List.length_cons, List.length_nil] at hl
        omega
      unfold isStdinEcho isSinglePrintable
      rw [decide_eq_false (by simp only [List.length_cons]; omega :
            ¬ (a :: b :: t2).length ≤ 4),
          decide_eq_false (by simp only [List.length_cons]; omega :
            ¬ (a :: b :: t2).length ≤ 6),
          beq_eq_false_iff_ne.mpr ne1, beq_eq_false_iff_ne.mpr ne2,
          beq_eq_false_iff_ne.mpr ne3]
      simp

/-! ### Lemmas about the hook pipeline -/

theorem stepTrim_of_exceed {cfg : Cfg} {f : Flow} (h : cfg.maxLineCount < f.lineCount) :
    stepTrim cfg f
      = { renderCount := f.renderCount, lineCount := 0, chunk := TRIM_SEQ ++ f.chunk } := by
  unfold stepTrim
  rw [if_pos h]

theorem stepTrim_of_le {cfg : Cfg} {f : Flow} (h : f.lineCount ≤ cfg.maxLineCount) :
    stepTrim cfg f = f := by
  unfold stepTrim
  rw [if_neg (by omega)]

theorem stepTrim_chunk (cfg : Cfg) (f : Flow) :
    ∃ p, (stepTrim cfg f).chunk = p ++ f.chunk := by
  unfold stepTrim
  split
  · exact ⟨TRIM_SEQ, rfl⟩
  · exact ⟨[], rfl⟩

theorem stepRepaint_chunk (cfg : Cfg) (a : Bool) (f : Flow) :
    ∃ p, (stepRepaint cfg a f).chunk = p ++ f.chunk := by
  unfold stepRepaint
  split
  · split
    · split
      · exact ⟨[], rfl⟩
      · exact ⟨CLEAR_SCROLLBACK, rfl⟩
    · exact ⟨[], rfl⟩
  · exact ⟨[], rfl⟩

theorem stepRepaint_lineCount (cfg : Cfg) (a : Bool) (f : Flow) :
    (stepRepaint cfg a f).lineCount = 0 ∨ (stepRepaint cfg a f).lineCount = f.lineCount := by
  unfold stepRepaint
  split
  · split
    · split
      · exact Or.inl rfl
      · exact Or.inl rfl
    · exact Or.inl rfl
  · exact Or.inr rfl

theorem stepRepaint_not_marker {cfg : Cfg} {a : Bool} {f : Flow}
    (h : (hasSub CLEAR_SCREEN f.chunk || hasSub HOME_CURSOR f.chunk) = false) :
    stepRepaint cfg a f = f := by
  unfold stepRepaint
  rw [if_neg (by simp [h])]

theorem stepRepaint_active {cfg : Cfg} {f : Flow}
    (hm : (hasSub CLEAR_SCREEN f.chunk || hasSub HOME_CURSOR f.chunk) = true)
    (hth : 0 < cfg.clearAfterRenders ∧ cfg.clearAfterRenders ≤ f.renderCount) :
    stepRepaint cfg true f = { f with lineCount := 0 } := by
  unfold stepRepaint
  rw [if_pos hm, if_pos hth, if_pos rfl]

theorem stepRepaint_fire {cfg : Cfg} {f : Flow}
    (hm : (hasSub CLEAR_SCREEN f.chunk || hasSub HOME_CURSOR f.chunk) = true)
    (hth : 0 < cfg.clearAfterRenders ∧ cfg.clearAfterRenders ≤ f.renderCount) :
    stepRepaint cfg false f
      = { renderCount := 0, lineCount := 0, chunk := CLEAR_SCROLLBACK ++ f.chunk } := by
  unfold stepRepaint
  rw [if_pos hm, if_pos hth, if_neg (by simp)]

theorem stepClear_chunk (f : Flow) :
    ∃ p, (stepClear f).chunk = p ++ f.chunk := by
  unfold stepClear
  split
  · exact ⟨CLEAR_SCROLLBACK, rfl⟩
  · exact ⟨[], rfl⟩

theorem stepClear_lineCount (f : Flow) :
    (stepClear f).lineCount = 0 ∨ (stepClear f).lineCount = f.lineCount := by
  unfold stepClear
  split
  · exact Or.inl rfl
  · exact Or.inr rfl

theorem stepClear_not_marker {f : Flow}
    (h1 : hasSub CONV_CLEARED f.chunk = false) (h2 : hasSub CHAT_CLEARED f.chunk = false) :
    stepClear f = f := by
  unfold stepClear
  rw [if_neg (by simp [h1, h2])]

theorem stepClear_fire {f : Flow}
    (h : (hasSub CONV_CLEARED f.chunk || hasSub CHAT_CLEARED f.chunk) = true) :
    stepClear f = { f with lineCount := 0, chunk := CLEAR_SCROLLBACK ++ f.chunk } := by
  unfold stepClear
  rw [if_pos h]

theorem detectorIsGlitched_track (now : Int) (o : Option GDState) :
    detectorIsGlitched (Option.map (trackStdout now) o) = detectorIsGlitched o := by
  cases o <;> rfl

theorem handleWrite_str_eq (cfg : Cfg) (now : Int) (st : HookState) (s : List Char)
    (h : isStdinEcho s = false) :
    handleWrite cfg now st (WriteChunk.str s)
      = (if cfg.glitchRecoveryEnabled && !st.glitchRecoveryInProgress
             && detectorIsGlitched (Option.map (trackStdout now) st.detector) then
           ({ renderCount := 0, lineCount := 0, lastTypingTime := st.lastTypingTime,
              glitchRecoveryInProgress := true,
              detector := Option.map (trackStdout now) st.detector },
            WriteChunk.str (TRIM_SEQ ++ (nonEchoFlow cfg now st s).chunk))
         else
           ({ renderCount := (nonEchoFlow cfg now st s).renderCount,
              lineCount := (nonEchoFlow cfg now st s).lineCount,
              lastTypingTime := st.lastTypingTime,
              glitchRecoveryInProgress := st.glitchRecoveryInProgress,
              detector := Option.map (trackStdout now) st.detector },
            WriteChunk.str (nonEchoFlow cfg now st s).chunk)) := by
  unfold handleWrite
  simp [h]

/-! ### C4 — the 120-line hard cap fires unconditionally -/

/-- C4: for every non-echo chunk whose newline count pushes `lineCount`
over `maxLineCount`, the hook resets `lineCount` to 0 and the forced-trim
directive (cursor-save, scrollback-clear, cursor-restore) is prepended to
the chunk unconditionally — there is no typing-activity hypothesis, so
this holds in particular while typing is active. -/
theorem claim4_hard_line_cap (cfg : Cfg) (now : Int) (st : HookState) (s : List Char)
    (hecho : isStdinEcho s = false)
    (hover : cfg.maxLineCount < st.lineCount + s.count '\n') :
    (handleWrite cfg now st (WriteChunk.str s)).1.lineCount = 0
    ∧ ∃ p, (handleWrite cfg now st (WriteChunk.str s)).2
        = WriteChunk.str (p ++ TRIM_SEQ ++ s) := by
  have hflow : ∃ q, (nonEchoFlow cfg now st s).chunk = q ++ TRIM_SEQ ++ s
      ∧ (nonEchoFlow cfg now st s).lineCount = 0 := by
    unfold nonEchoFlow
    rw [stepTrim_of_exceed hover]
    obtain ⟨p2, hp2⟩ := stepRepaint_chunk cfg (typingActive cfg now st.lastTypingTime)
      { renderCount := st.renderCount + 1, lineCount := 0, chunk := TRIM_SEQ ++ s }
    obtain ⟨p3, hp3⟩ := stepClear_chunk
      (stepRepaint cfg (typingActive cfg now st.lastTypingTime)
        { renderCount := st.renderCount + 1, lineCount := 0, chunk := TRIM_SEQ ++ s })
    refine ⟨p3 ++ p2, ?_, ?_⟩
    · rw [hp3, hp2]
      simp [List.append_assoc]
    · rcases stepClear_lineCount
        (stepRepaint cfg (typingActive cfg now st.lastTypingTime)
          { renderCount := st.renderCount + 1, lineCount := 0, chunk := TRIM_SEQ ++ s })
        with hc | hc
      · exact hc
      · rw [hc]
        rcases stepRepaint_lineCount cfg (typingActive cfg now st.lastTypingTime)
          { renderCount := st.renderCount + 1, lineCount := 0, chunk := TRIM_SEQ ++ s }
          with hr | hr
        · exact hr
        · exact hr
  obtain ⟨q, hq, hlc⟩ := hflow
  rw [handleWrite_str_eq cfg now st s hecho]
  split
  · refine ⟨rfl, TRIM_SEQ ++ q, ?_⟩
    rw [hq]
    simp [List.append_assoc]
  · refine ⟨hlc, q, ?_⟩
    rw [hq]

/-- Witness for C4: an overflowing ordinary chunk arriving while typing is
active (keystroke 10 ms before, cooldown 500 ms) still gets the trim. -/
theorem claim4_hard_line_cap_w :
    ((handleWrite cfg0 100
        { renderCount := 3, lineCount := 120, lastTypingTime := 90,
          glitchRecoveryInProgress := false, detector := none }
        (WriteChunk.str ['h', 'i', '\n'])).1.lineCount = 0
     ∧ ∃ p, (handleWrite cfg0 100
        { renderCount := 3, lineCount := 120, lastTypingTime := 90,
          glitchRecoveryInProgress := false, detector := none }
        (WriteChunk.str ['h', 'i', '\n'])).2
        = WriteChunk.str (p ++ TRIM_SEQ ++ ['h', 'i', '\n'])) :=
  claim4_hard_line_cap cfg0 100
    { renderCount := 3, lineCount := 120, lastTypingTime := 90,
      glitchRecoveryInProgress := false, detector := none }
    ['h', 'i', '\n'] (by decide) (by decide)

/-! ### C6 — explicit clears are never deferred -/

/-- C6: every chunk containing an explicit-clear marker (`'Conversation
cleared'` or `'Chat cleared'`) has `lineCount` reset to 0 and a
scrollback-clear directive prepended ahead of it, with no typing-activity
hypothesis — explicit clears are never deferred. -/
theorem claim6_explicit_clear_immediate (cfg : Cfg) (now : Int) (st : HookState)
    (s : List Char)
    (hm : (hasSub CONV_CLEARED s || hasSub CHAT_CLEARED s) = true) :
    (handleWrite cfg now st (WriteChunk.str s)).1.lineCount = 0
    ∧ ∃ p q, (handleWrite cfg now st (WriteChunk.str s)).2
        = WriteChunk.str (p ++ CLEAR_SCROLLBACK ++ q ++ s) := by
  have hlen : 6 < s.length := by
    simp only [Bool.or_eq_true] at hm
    rcases hm with h | h
    · have := hasSub_length h
      simp only [CONV_CLEARED, List.length_cons, List.length_nil] at this
      omega
    · have := hasSub_length h
      simp only [CHAT_CLEARED, List.length_cons, List.length_nil] at this
      omega
  have hecho := isStdinEcho_of_long hlen
  have hflow : ∃ q, (nonEchoFlow cfg now st s).chunk = CLEAR_SCROLLBACK ++ q ++ s
      ∧ (nonEchoFlow cfg now st s).lineCount = 0 := by
    unfold nonEchoFlow
    obtain ⟨q1, hq1⟩ := stepTrim_chunk cfg
      { renderCount := st.renderCount + 1,
        lineCount := st.lineCount + s.count '\n', chunk := s }
    obtain ⟨q2, hq2⟩ := stepRepaint_chunk cfg (typingActive cfg now st.lastTypingTime)
      (stepTrim cfg
        { renderCount := st.renderCount + 1,
          lineCount := st.lineCount + s.count '\n', chunk := s })
    have hmark2 : (hasSub CONV_CLEARED
          (stepRepaint cfg (typingActive cfg now st.lastTypingTime)
            (stepTrim cfg
              { renderCount := st.renderCount + 1,
                lineCount := st.lineCount + s.count '\n', chunk := s })).chunk
        || hasSub CHAT_CLEARED
          (stepRepaint cfg (typingActive cfg now st.lastTypingTime)
            (stepTrim cfg
              { renderCount := st.renderCount + 1,
                lineCount := st.lineCount + s.count '\n', chunk := s })).chunk) = true := by
      rw [hq2, hq1]
      simp only [Bool.or_eq_true] at hm ⊢
      rcases hm with h | h
      · exact Or.inl (hasSub_append_right _ (hasSub_append_right _ h))
      · exact Or.inr (hasSub_append_right _ (hasSub_append_right _ h))
    rw [stepClear_fire hmark2]
    refine ⟨q2 ++ q1, ?_, rfl⟩
    rw [hq2, hq1]
    simp [List.append_assoc]
  obtain ⟨q, hq, hlc⟩ := hflow
  rw [handleWrite_str_eq cfg now st s hecho]
  split
  · refine ⟨rfl, TRIM_SEQ, q, ?_⟩
    rw [hq]
    rfl
  · exact ⟨hlc, [], q, by rw [hq]; rfl⟩

/-- Witness for C6: a `'Chat cleared'` chunk arriving while typing is
active (keystroke 50 ms before, cooldown 500 ms) still gets the clear. -/
theorem claim6_explicit_clear_immediate_w :
    ((handleWrite cfg0 100
        { renderCount := 3, lineCount := 7, lastTypingTime := 50,
          glitchRecoveryInProgress := false, detector := none }
        (WriteChunk.str CHAT_CLEARED)).1.lineCount = 0
     ∧ ∃ p q, (handleWrite cfg0 100
        { renderCount := 3, lineCount := 7, lastTypingTime := 50,
          glitchRecoveryInProgress := false, detector := none }
        (WriteChunk.str CHAT_CLEARED)).2
        = WriteChunk.str (p ++ CLEAR_SCROLLBACK ++ q ++ CHAT_CLEARED)) :=
  claim6_explicit_clear_immediate cfg0 100
    { renderCount := 3, lineCount := 7, lastTypingTime := 50,
      glitchRecoveryInProgress := false, detector := none }
    CHAT_CLEARED (by decide)

/-! ### C5 — repaint-triggered clears are deferred while typing -/

theorem hasSub_cons_eq (pat : List Char) (c : Char) (cs : List Char) :
    hasSub pat (c :: cs) = (leadsWith pat (c :: cs) || hasSub pat cs) := rfl

theorem leadsWith_false_of_head {a c : Char} {ps cs : List Char}
    (h : (a == c) = false) : leadsWith (a :: ps) (c :: cs) = false := by
  simp [leadsWith, h]

theorem conv_not_in_cs (s : List Char) (h : hasSub CONV_CLEARED s = false) :
    hasSub CONV_CLEARED (CLEAR_SCROLLBACK ++ s) = false := by
  show hasSub CONV_CLEARED ('\x1b' :: '[' :: '3' :: 'J' :: s) = false
  rw [hasSub_cons_eq, hasSub_cons_eq, hasSub_cons_eq, hasSub_cons_eq, h]
  simp only [CONV_CLEARED]
  rw [leadsWith_false_of_head (a := 'C') (by decide),
      leadsWith_false_of_head (a := 'C') (by decide),
      leadsWith_false_of_head (a := 'C') (by decide),
      leadsWith_false_of_head (a := 'C') (by decide)]
  rfl

theorem chat_not_in_cs (s : List Char) (h : hasSub CHAT_CLEARED s = false) :
    hasSub CHAT_CLEARED (CLEAR_SCROLLBACK ++ s) = false := by
  show hasSub CHAT_CLEARED ('\x1b' :: '[' :: '3' :: 'J' :: s) = false
  rw [hasSub_cons_eq, hasSub_cons_eq, hasSub_cons_eq, hasSub_cons_eq, h]
  simp only [CHAT_CLEARED]
  rw [leadsWith_false_of_head (a := 'C') (by decide),
      leadsWith_false_of_head (a := 'C') (by decide),
      leadsWith_false_of_head (a := 'C') (by decide),
      leadsWith_false_of_head (a := 'C') (by decide)]
  rfl

/-- C5: on a repaint chunk with the render threshold reached (and the
other injection branches quiescent: no line-cap overflow, no explicit-clear
marker, detector not glitched), while typing is active no scrollback clear
is prepended and `renderCount` is not reset (it keeps the incremented
value); once typing is inactive, the same chunk gets the scrollback clear
prepended and `renderCount` resets to 0. -/
theorem claim5_repaint_clear_deferred (cfg : Cfg) (now : Int) (st : HookState)
    (s : List Char)
    (hecho : isStdinEcho s = false)
    (hmark : (hasSub CLEAR_SCREEN s || hasSub HOME_CURSOR s) = true)
    (hconv : hasSub CONV_CLEARED s = false)
    (hchat : hasSub CHAT_CLEARED s = false)
    (hnocap : st.lineCount + s.count '\n' ≤ cfg.maxLineCount)
    (hnoglitch : detectorIsGlitched st.detector = false)
    (hth1 : 0 < cfg.clearAfterRenders)
    (hth2 : cfg.clearAfterRenders ≤ st.renderCount + 1) :
    (now - st.lastTypingTime < cfg.typingCooldownMs →
       (handleWrite cfg now st (WriteChunk.str s)).2 = WriteChunk.str s
       ∧ (handleWrite cfg now st (WriteChunk.str s)).1.renderCount = st.renderCount + 1)
    ∧ (cfg.typingCooldownMs ≤ now - st.lastTypingTime →
       (handleWrite cfg now st (WriteChunk.str s)).2
           = WriteChunk.str (CLEAR_SCROLLBACK ++ s)
       ∧ (handleWrite cfg now st (WriteChunk.str s)).1.renderCount = 0) := by
  have hcond : ¬ ((cfg.glitchRecoveryEnabled && !st.glitchRecoveryInProgress
      && detectorIsGlitched (Option.map (trackStdout now) st.detector)) = true) := by
    rw [detectorIsGlitched_track, hnoglitch]
    simp
  constructor
  · intro htyp
    have hactive : typingActive cfg now st.lastTypingTime = true := by
      unfold typingActive
      exact decide_eq_true htyp
    have hflow : nonEchoFlow cfg now st s
        = { renderCount := st.renderCount + 1, lineCount := 0, chunk := s } := by
      unfold nonEchoFlow
      rw [stepTrim_of_le hnocap, hactive, stepRepaint_active hmark ⟨hth1, hth2⟩,
          stepClear_not_marker hconv hchat]
    rw [handleWrite_str_eq cfg now st s hecho, if_neg hcond, hflow]
    exact ⟨rfl, rfl⟩
  · intro htyp
    have hinactive : typingActive cfg now st.lastTypingTime = false := by
      unfold typingActive
      exact decide_eq_false (by omega)
    have hflow : nonEchoFlow cfg now st s
        = { renderCount := 0, lineCount := 0, chunk := CLEAR_SCROLLBACK ++ s } := by
      unfold nonEchoFlow
      rw [stepTrim_of_le hnocap, hinactive, stepRepaint_fire hmark ⟨hth1, hth2⟩,
          stepClear_not_marker (conv_not_in_cs s hconv) (chat_not_in_cs s hchat)]
    rw [handleWrite_str_eq cfg now st s hecho, if_neg hcond, hflow]
    exact ⟨rfl, rfl⟩

/-- Witness for C5 at a repaint chunk with the threshold reached, once with
a keystroke 100 ms before (active) and once 600 ms before (inactive). -/
theorem claim5_repaint_clear_deferred_w :
    ((100 - (0 : Int) < cfg0.typingCooldownMs →
       (handleWrite cfg0 100
          { renderCount := 499, lineCount := 0, lastTypingTime := 0,
            glitchRecoveryInProgress := false, detector := none }
          (WriteChunk.str CLEAR_SCREEN)).2 = WriteChunk.str CLEAR_SCREEN
       ∧ (handleWrite cfg0 100
          { renderCount := 499, lineCount := 0, lastTypingTime := 0,
            glitchRecoveryInProgress := false, detector := none }
          (WriteChunk.str CLEAR_SCREEN)).1.renderCount = 500)
     ∧ (cfg0.typingCooldownMs ≤ 100 - (0 : Int) →
       (handleWrite cfg0 100
          { renderCount := 499, lineCount := 0, lastTypingTime := 0,
            glitchRecoveryInProgress := false, detector := none }
          (WriteChunk.str CLEAR_SCREEN)).2
           = WriteChunk.str (CLEAR_SCROLLBACK ++ CLEAR_SCREEN)
       ∧ (handleWrite cfg0 100
          { renderCount := 499, lineCount := 0, lastTypingTime := 0,
            glitchRecoveryInProgress := false, detector := none }
          (WriteChunk.str CLEAR_SCREEN)).1.renderCount = 0))
    ∧ ((600 - (0 : Int) < cfg0.typingCooldownMs →
       (handleWrite cfg0 600
          { renderCount := 499, lineCount := 0, lastTypingTime := 0,
            glitchRecoveryInProgress := false, detector := none }
          (WriteChunk.str CLEAR_SCREEN)).2 = WriteChunk.str CLEAR_SCREEN
       ∧ (handleWrite cfg0 600
          { renderCount := 499, lineCount := 0, lastTypingTime := 0,
            glitchRecoveryInProgress := false, detector := none }
          (WriteChunk.str CLEAR_SCREEN)).1.renderCount = 500)
     ∧ (cfg0.typingCooldownMs ≤ 600 - (0 : Int) →
       (handleWrite cfg0 600
          { renderCount := 499, lineCount := 0, lastTypingTime := 0,
            glitchRecoveryInProgress := false, detector := none }
          (WriteChunk.str CLEAR_SCREEN)).2
           = WriteChunk.str (CLEAR_SCROLLBACK ++ CLEAR_SCREEN)
       ∧ (handleWrite cfg0 600
          { renderCount := 499, lineCount := 0, lastTypingTime := 0,
            glitchRecoveryInProgress := false, detector := none }
          (WriteChunk.str CLEAR_SCREEN)).1.renderCount = 0)) :=
  ⟨claim5_repaint_clear_deferred cfg0 100
      { renderCount := 499, lineCount := 0, lastTypingTime := 0,
        glitchRecoveryInProgress := false, detector := none }
      CLEAR_SCREEN (by decide) (by decide) (by decide) (by decide) (by decide)
      (by decide) (by decide) (by decide),
   claim5_repaint_clear_deferred cfg0 600
      { renderCount := 499, lineCount := 0, lastTypingTime := 0,
        glitchRecoveryInProgress := false, detector := none }
      CLEAR_SCREEN (by decide) (by decide) (by decide) (by decide) (by decide)
      (by decide) (by decide) (by decide)⟩

/-! ### C2 — resize debouncing -/

theorem notifyBurst_run (cfg : Cfg) :
    ∀ (ts : List Int) (t : Int) (st : RdState),
      burstGaps cfg.resizeDebounceMs st.lastResizeTime (t :: ts) = true →
      notifyBurst cfg (t :: ts) st
        = { lastResizeTime := lastOf t ts,
            resizeTimeout := some (lastOf t ts + cfg.resizeDebounceMs),
            fires := st.fires } := by
  intro ts
  induction ts with
  | nil =>
    intro t st h
    rw [show burstGaps cfg.resizeDebounceMs st.lastResizeTime [t]
          = (decide (t - st.lastResizeTime < cfg.resizeDebounceMs)
             && burstGaps cfg.resizeDebounceMs t []) from rfl,
        Bool.and_eq_true, decide_eq_true_eq] at h
    show debouncedSigwinch cfg t st = _
    unfold debouncedSigwinch
    rw [if_pos h.1]
    rfl
  | cons t2 ts ih =>
    intro t st h
    rw [show burstGaps cfg.resizeDebounceMs st.lastResizeTime (t :: t2 :: ts)
          = (decide (t - st.lastResizeTime < cfg.resizeDebounceMs)
             && burstGaps cfg.resizeDebounceMs t (t2 :: ts)) from rfl,
        Bool.and_eq_true, decide_eq_true_eq] at h
    show notifyBurst cfg (t2 :: ts) (debouncedSigwinch cfg t st)
        = { lastResizeTime := lastOf t (t2 :: ts),
            resizeTimeout := some (lastOf t (t2 :: ts) + cfg.resizeDebounceMs),
            fires := st.fires }
    have hstep : debouncedSigwinch cfg t st
        = { lastResizeTime := t, resizeTimeout := some (t + cfg.resizeDebounceMs),
            fires := st.fires } := by
      unfold debouncedSigwinch
      rw [if_pos h.1]
    rw [hstep, ih t2
      { lastResizeTime := t, resizeTimeout := some (t + cfg.resizeDebounceMs),
        fires := st.fires } h.2]
    rfl

/-- C2: for a burst in which every notification (the first included,
measured against the debouncer's recorded last-resize time) arrives
strictly less than `resizeDebounceMs` after the previous one, the handler
list is invoked exactly once for the whole burst — zero times while the
burst is processed, once when the single pending timer fires at
`resizeDebounceMs` after the last notification; an isolated notification
(gap at least `resizeDebounceMs`) fires immediately and synchronously and
leaves no timer pending. -/
theorem claim2_resize_debounce_semantics :
    (∀ (cfg : Cfg) (st : RdState) (t : Int) (ts : List Int),
       burstGaps cfg.resizeDebounceMs st.lastResizeTime (t :: ts) = true →
         notifyBurst cfg (t :: ts) st
           = { lastResizeTime := lastOf t ts,
               resizeTimeout := some (lastOf t ts + cfg.resizeDebounceMs),
               fires := st.fires }
         ∧ fireResizeTimer (notifyBurst cfg (t :: ts) st)
           = { lastResizeTime := lastOf t ts, resizeTimeout := none,
               fires := st.fires + 1 })
    ∧ (∀ (cfg : Cfg) (st : RdState) (now : Int),
       cfg.resizeDebounceMs ≤ now - st.lastResizeTime →
         debouncedSigwinch cfg now st
           = { lastResizeTime := now, resizeTimeout := none, fires := st.fires + 1 }) := by
  constructor
  · intro cfg st t ts h
    have h1 := notifyBurst_run cfg ts t st h
    refine ⟨h1, ?_⟩
    rw [h1]
    rfl
  · intro cfg st now h
    unfold debouncedSigwinch
    rw [if_neg (by omega)]

/-- Witness for C2: a three-notification burst at 1050/1100/1140 after a
last resize at 1000 (window 150), and an isolated notification at 5000. -/
theorem claim2_resize_debounce_semantics_w :
    (notifyBurst cfg0 [1050, 1100, 1140]
       { lastResizeTime := 1000, resizeTimeout := none, fires := 0 }
       = { lastResizeTime := 1140, resizeTimeout := some 1290, fires := 0 }
     ∧ fireResizeTimer (notifyBurst cfg0 [1050, 1100, 1140]
       { lastResizeTime := 1000, resizeTimeout := none, fires := 0 })
       = { lastResizeTime := 1140, resizeTimeout := none, fires := 1 })
    ∧ debouncedSigwinch cfg0 5000
       { lastResizeTime := 1000, resizeTimeout := none, fires := 0 }
       = { lastResizeTime := 5000, resizeTimeout := none, fires := 1 } :=
  ⟨claim2_resize_debounce_semantics.1 cfg0
     { lastResizeTime := 1000, resizeTimeout := none, fires := 0 }
     1050 [1100, 1140] (by decide),
   claim2_resize_debounce_semantics.2 cfg0
     { lastResizeTime := 1000, resizeTimeout := none, fires := 0 }
     5000 (by decide)⟩

/-! ### C7 — recovery error handling (corrected) -/

/-- A glitched detector state whose vote stays glitched at times 11000 and
12000 (stdin silent since 0, output active at 10000). -/
def dGlitch : GDState :=
  { initGD 0 with lastStdoutTime := 10000, isGlitched := true, glitchStartTime := some 9000 }

/-- Environment for the counterexample: screen session present, the screen
command throws, stdout is a TTY. -/
def envThrow : RecEnv :=
  { screenSession := true, screenThrows := true, isTTY := true,
    writeThrows := false, t1 := 11000, t2 := 12000 }

/-- Environment where the screen command runs but resolves nothing. -/
def envNoThrow : RecEnv :=
  { screenSession := true, screenThrows := false, isTTY := true,
    writeThrows := false, t1 := 11000, t2 := 12000 }

/-- Environment with no multiplexer session where the direct scrollback
write throws. -/
def envWriteThrowNoSession : RecEnv :=
  { screenSession := false, screenThrows := false, isTTY := true,
    writeThrows := true, t1 := 11000, t2 := 12000 }

/-- Environment where the screen command runs without resolving the glitch
and then the direct scrollback write throws. -/
def envWriteThrowAfterScreen : RecEnv :=
  { screenSession := true, screenThrows := false, isTTY := true,
    writeThrows := true, t1 := 11000, t2 := 12000 }

/-- Counterexample to C7: when the screen command throws, the recovery run
emits only `recovery-started` and `recovery-error`, performs no terminal
write at all (the second method — the direct scrollback clear — is never
attempted, and no `recovery-failed` is emitted), and returns failure. -/
theorem claim7_counterexample :
    (attemptRecovery gcfg0 envThrow dGlitch).2.2.2 = []
    ∧ (attemptRecovery gcfg0 envThrow dGlitch).2.2.1
        = [RecEvent.started, RecEvent.error]
    ∧ (attemptRecovery gcfg0 envThrow dGlitch).1 = false := by
  decide

/-- C7 (amended): an exception during either method is caught inside the
recovery layer (the function is total — nothing propagates), emits
`recovery-error` and makes the whole recovery return failure immediately,
without attempting any remaining method: a throwing screen command skips
the direct scrollback clear, and a throwing scrollback write (whether
method 2 was reached with no session present, or after a screen attempt
that completed without resolving the glitch) ends the recovery the same
way; a screen attempt that completes without throwing but does not resolve
the glitch proceeds to the second method (the scrollback clear is actually
written), and exhausting both methods without resolution emits
`recovery-failed` and returns failure. -/
theorem claim7_recovery_amended :
    (∀ (gcfg : GDConfig) (env : RecEnv) (d : GDState),
       d.isGlitched = true → env.screenSession = true → env.screenThrows = true →
         attemptRecovery gcfg env d
           = (false, bumpRecoveries d, [RecEvent.started, RecEvent.error], []))
    ∧ (∀ (gcfg : GDConfig) (env : RecEnv) (d : GDState),
       d.isGlitched = true → env.screenSession = true → env.screenThrows = false →
       env.isTTY = true → env.writeThrows = false →
       (checkGlitchState gcfg env.t1 (bumpRecoveries d)).1 = true →
       (checkGlitchState gcfg env.t2
          (checkGlitchState gcfg env.t1 (bumpRecoveries d)).2).1 = true →
         attemptRecovery gcfg env d
           = (false,
              (checkGlitchState gcfg env.t2
                 (checkGlitchState gcfg env.t1 (bumpRecoveries d)).2).2,
              [RecEvent.started, RecEvent.failed], [CLEAR_SCROLLBACK]))
    ∧ (∀ (gcfg : GDConfig) (env : RecEnv) (d : GDState),
       d.isGlitched = true → env.screenSession = false →
       env.isTTY = true → env.writeThrows = true →
         attemptRecovery gcfg env d
           = (false, bumpRecoveries d, [RecEvent.started, RecEvent.error], []))
    ∧ (∀ (gcfg : GDConfig) (env : RecEnv) (d : GDState),
       d.isGlitched = true → env.screenSession = true → env.screenThrows = false →
       env.isTTY = true → env.writeThrows = true →
       (checkGlitchState gcfg env.t1 (bumpRecoveries d)).1 = true →
         attemptRecovery gcfg env d
           = (false, (checkGlitchState gcfg env.t1 (bumpRecoveries d)).2,
              [RecEvent.started, RecEvent.error], [])) := by
  refine ⟨?_, ?_, ?_, ?_⟩
  · intro gcfg env d hg hs ht
    unfold attemptRecovery
    rw [hg, hs, ht]
    rfl
  · intro gcfg env d hg hs ht htty hw hc1 hc2
    rcases env with ⟨ss, sth, tty, wth, t1, t2⟩
    dsimp only at hs ht htty hw hc1 hc2
    subst hs ht htty hw
    simp only [attemptRecovery, recoveryMethodTwo, hg, hc1, hc2, Bool.not_true,
      Bool.not_false, Bool.and_true, Bool.true_and, Bool.and_false, Bool.false_and,
      Bool.false_eq_true, Bool.true_eq_false, if_true, if_false, ite_true, ite_false,
      List.singleton_append, List.cons_append, List.nil_append]
  · intro gcfg env d hg hs htty hw
    rcases env with ⟨ss, sth, tty, wth, t1, t2⟩
    dsimp only at hs htty hw
    subst hs htty hw
    simp only [attemptRecovery, recoveryMethodTwo, hg, Bool.not_true, Bool.not_false,
      Bool.and_true, Bool.true_and, Bool.and_false, Bool.false_and,
      Bool.false_eq_true, Bool.true_eq_false, if_true, if_false, ite_true, ite_false,
      List.singleton_append, List.cons_append, List.nil_append]
  · intro gcfg env d hg hs ht htty hw hc1
    rcases env with ⟨ss, sth, tty, wth, t1, t2⟩
    dsimp only at hs ht htty hw hc1
    subst hs ht htty hw
    simp only [attemptRecovery, recoveryMethodTwo, hg, hc1, Bool.not_true,
      Bool.not_false, Bool.and_true, Bool.true_and, Bool.and_false, Bool.false_and,
      Bool.false_eq_true, Bool.true_eq_false, if_true, if_false, ite_true, ite_false,
      List.singleton_append, List.cons_append, List.nil_append]

/-- Witness for C7's amended statement at concrete inputs: the
method-1-throwing run, the non-resolving exhaustion run, and the two
method-2-throwing runs (without and with a preceding screen attempt). -/
theorem claim7_recovery_amended_w :
    attemptRecovery gcfg0 envThrow dGlitch
      = (false, bumpRecoveries dGlitch, [RecEvent.started, RecEvent.error], [])
    ∧ attemptRecovery gcfg0 envNoThrow dGlitch
      = (false,
         (checkGlitchState gcfg0 envNoThrow.t2
            (checkGlitchState gcfg0 envNoThrow.t1 (bumpRecoveries dGlitch)).2).2,
         [RecEvent.started, RecEvent.failed], [CLEAR_SCROLLBACK])
    ∧ attemptRecovery gcfg0 envWriteThrowNoSession dGlitch
      = (false, bumpRecoveries dGlitch, [RecEvent.started, RecEvent.error], [])
    ∧ attemptRecovery gcfg0 envWriteThrowAfterScreen dGlitch
      = (false,
         (checkGlitchState gcfg0 envWriteThrowAfterScreen.t1
            (bumpRecoveries dGlitch)).2,
         [RecEvent.started, RecEvent.error], []) :=
  ⟨claim7_recovery_amended.1 gcfg0 envThrow dGlitch rfl rfl rfl,
   claim7_recovery_amended.2.1 gcfg0 envNoThrow dGlitch rfl rfl rfl rfl rfl
     (by decide) (by decide),
   claim7_recovery_amended.2.2.1 gcfg0 envWriteThrowNoSession dGlitch rfl rfl rfl rfl,
   claim7_recovery_amended.2.2.2 gcfg0 envWriteThrowAfterScreen dGlitch rfl rfl rfl
     rfl rfl (by decide)⟩

/-! ### C8 — disable (corrected) -/

/-- Counterexample to C8: after `install` then `disable`, the periodic
clear interval is still running and the signal-registration hook is still
in place — `disable` does not cancel timers nor restore `process.on`. -/
theorem claim8_counterexample :
    (disable (install cfg0 idx0)).clearIntervalActive = true
    ∧ (disable (install cfg0 idx0)).onHooked = true := by
  decide

/-- C8 (amended): `disable` is idempotent (calling it twice equals calling
it once) and a no-op before install (when `originalWrite` was never
captured); when installed it restores exactly the stdout write hook and
nothing else — the periodic clear interval, a pending resize timer and the
signal-registration hook are all left in place. -/
theorem claim8_disable_amended :
    (∀ s : IdxState, disable (disable s) = disable s)
    ∧ (∀ s : IdxState, s.originalWrite = false → disable s = s)
    ∧ (∀ s : IdxState, s.originalWrite = true →
         disable s = { s with writeHooked := false }) := by
  refine ⟨?_, ?_, ?_⟩
  · intro s
    by_cases h : s.originalWrite <;> simp [disable, h]
  · intro s h
    simp [disable, h]
  · intro s h
    simp [disable, h]

/-- Witness for C8's amended statement: idempotence after an install,
no-op on the pristine state, and the exact effect on an installed state. -/
theorem claim8_disable_amended_w :
    disable (disable (install cfg0 idx0)) = disable (install cfg0 idx0)
    ∧ disable idx0 = idx0
    ∧ disable (install cfg0 idx0) = { install cfg0 idx0 with writeHooked := false } :=
  ⟨claim8_disable_amended.1 (install cfg0 idx0),
   claim8_disable_amended.2.1 idx0 (by decide),
   claim8_disable_amended.2.2 (install cfg0 idx0) (by decide)⟩

end ScreenFix
